import Mathlib

/-!
Shallow embedding of `src/moving_puzzle_objects.py` (the statue-puzzle
movement core): the `Direction` and `Turn` enumerations, the `Movable`
class with its `turn` / `move` / `reset` methods, and the `Player`
subclass, followed by proofs about their behaviour.

Python's dynamic typing matters here, so fallible operations return the
unchanged state paired with an optional exception kind (`PyErr`), and the
`__dir` field is modelled by a dynamic value (`DirVal`) that is either a
`Direction` enum member (as stored by the constructor and by `reset`) or a
raw integer tuple (as the assignment in `turn` would store).
-/

namespace MovingPuzzleObjects

/-- The `Direction` enumeration of the source: four compass members, each
carrying a `(dx, dy)` tuple as its value. -/
inductive Direction
  | UP
  | DOWN
  | LEFT
  | RIGHT
deriving DecidableEq

/-- `Direction.value`: the tuple attached to each member in the source,
`UP = (0, -1)`, `DOWN = (0, 1)`, `LEFT = (-1, 0)`, `RIGHT = (1, 0)`. -/
def Direction.value : Direction → Int × Int
  | .UP => (0, -1)
  | .DOWN => (0, 1)
  | .LEFT => (-1, 0)
  | .RIGHT => (1, 0)

/-- The `Turn` enumeration of the source: two members, `RIGHT` and `LEFT`. -/
inductive Turn
  | RIGHT
  | LEFT
deriving DecidableEq

/-- The value each `Turn` member is written with: a function on raw
`(dx, dy)` tuples.  `Turn.RIGHT` is `lambda dir: (-dir[1], -dir[0])` and
`Turn.LEFT` is `lambda dir: (dir[1], dir[0])`; the `__init__` of the enum
stores this value in the `get_new_dir` attribute. -/
def Turn.get_new_dir : Turn → Int × Int → Int × Int
  | .RIGHT, d => (-d.2, -d.1)
  | .LEFT, d => (d.2, d.1)

/-- Python exception kinds the translated operations can surface. -/
inductive PyErr
  | TypeError
  | AttributeError
  | IndexError
deriving DecidableEq

/-- Dynamic value held by the private `__dir` field: the constructor and
`reset` store a `Direction` enum member, while the assignment in `turn`
would store the raw tuple returned by the rotation lambda. -/
inductive DirVal
  | dir (d : Direction)
  | tup (v : Int × Int)
deriving DecidableEq

/-- Applying the stored rotation lambda (`turn.get_new_dir`) to the current
`__dir` value.  The lambda subscripts its argument (`dir[1]`, `dir[0]`); a
`Direction` enum member is not subscriptable, so the call raises
`TypeError` whenever `__dir` holds a `Direction`.  (In CPython the call
fails even one step earlier: `Enum` does not turn callable class-body
values into members, so `Turn.RIGHT` / `Turn.LEFT` are plain functions
without a `get_new_dir` attribute and the lookup raises `AttributeError`;
either way the rotation raises before any assignment.  The embedding
grants the member reading and keeps the `TypeError` stage.) -/
def rotApply (t : Turn) (v : DirVal) : Except PyErr (Int × Int) :=
  match v with
  | .dir _ => .error PyErr.TypeError
  | .tup p => .ok (t.get_new_dir p)

/-- State of a `Movable`: the remembered construction pair
(`__start_pos`, `__start_dir`) and the current pair (`__pos`, `__dir`). -/
structure Movable where
  start_pos : Int × Int
  start_dir : Direction
  pos : Int × Int
  dir : DirVal
deriving DecidableEq

/-- `Movable.__init__(pos, dir)`: stores `pos` / `dir` both as the initial
state and as the current state. -/
def Movable.init (pos : Int × Int) (dir : Direction) : Movable :=
  { start_pos := pos, start_dir := dir, pos := pos, dir := DirVal.dir dir }

/-- `Movable.turn(turn)`: `self.__dir = turn.get_new_dir(self.__dir)`.
The right-hand side is evaluated first; if it raises, the assignment never
executes and the state is returned unchanged alongside the error. -/
def Movable.turn (m : Movable) (t : Turn) : Movable × Option PyErr :=
  match rotApply t m.dir with
  | .error e => (m, some e)
  | .ok v => ({ m with dir := DirVal.tup v }, none)

/-- `Movable.move(grid)`: computes
`new_coords = [self.__pos[i] + self.__dir.value[i] for i in range(2)]` and
then, when `0 <= new_coords[1] < len(grid)` and
`0 <= new_coords[0] < len(grid[new_coords[1]])`, assigns
`self.__pos = new_coords`.  Reading `self.__dir.value` on a raw tuple (as a
successful `turn` would have stored) raises `AttributeError`; the row
access `grid[new_coords[1]]` is modelled by a fallible lookup that
surfaces `IndexError` when the index is out of range, placed exactly where
Python indexes the grid (after the short-circuiting row-bound conjunct). -/
def Movable.move {α : Type} (m : Movable) (grid : List (List α)) :
    Movable × Option PyErr :=
  match m.dir with
  | .tup _ => (m, some PyErr.AttributeError)
  | .dir d =>
    let c : Int × Int := (m.pos.1 + d.value.1, m.pos.2 + d.value.2)
    if 0 ≤ c.2 ∧ c.2 < (grid.length : Int) then
      match grid[c.2.toNat]? with
      | none => (m, some PyErr.IndexError)
      | some row =>
        if 0 ≤ c.1 ∧ c.1 < (row.length : Int) then ({ m with pos := c }, none)
        else (m, none)
    else (m, none)

/-- `Movable.reset()`: `self.__pos = self.__start_pos` and
`self.__dir = self.__start_dir`, unconditionally. -/
def Movable.reset (m : Movable) : Movable :=
  { m with pos := m.start_pos, dir := DirVal.dir m.start_dir }

/-- The candidate position `position + direction.vector()` computed by
`move` (for a `__dir` field that still holds a `Direction`). -/
def candidate (m : Movable) (d : Direction) : Int × Int :=
  (m.pos.1 + d.value.1, m.pos.2 + d.value.2)

/-- The bounds predicate of `move`, as a standalone boolean: row index
within `[0, len(grid))` and, within that row, column index within
`[0, len(grid[row]))`. -/
def inBounds {α : Type} (grid : List (List α)) (c : Int × Int) : Bool :=
  if 0 ≤ c.2 ∧ c.2 < (grid.length : Int) then
    match grid[c.2.toNat]? with
    | none => false
    | some row => if 0 ≤ c.1 ∧ c.1 < (row.length : Int) then true else false
  else false

/-- A command issued by the caller to a `Movable`: one `turn`, `move` or
`reset` call (the grid for `move` is supplied per call). -/
inductive Cmd (α : Type)
  | turn (t : Turn)
  | move (grid : List (List α))
  | reset

/-- One command applied to a `Movable`.  A raised exception leaves the
object's fields unchanged, so the state after an erroring call is the old
state. -/
def Movable.step {α : Type} (m : Movable) : Cmd α → Movable
  | .turn t => (m.turn t).1
  | .move grid => (m.move grid).1
  | .reset => m.reset

/-- A finite sequence of commands applied in order. -/
def Movable.run {α : Type} (m : Movable) : List (Cmd α) → Movable
  | [] => m
  | c :: cs => (m.step c).run cs

/-- `Player`, the subclass of `Movable` whose `__init__` just calls
`super().__init__(pos, dir)`: no added state. -/
structure Player where
  toMovable : Movable
deriving DecidableEq

/-- `Player.__init__(pos, dir)`: defers to the `Movable` constructor. -/
def Player.init (pos : Int × Int) (dir : Direction) : Player :=
  ⟨Movable.init pos dir⟩

/-- `Player.turn`, inherited unchanged from `Movable`. -/
def Player.turn (p : Player) (t : Turn) : Player × Option PyErr :=
  (⟨(p.toMovable.turn t).1⟩, (p.toMovable.turn t).2)

/-- `Player.move`, inherited unchanged from `Movable`. -/
def Player.move {α : Type} (p : Player) (grid : List (List α)) :
    Player × Option PyErr :=
  (⟨(p.toMovable.move grid).1⟩, (p.toMovable.move grid).2)

/-- `Player.reset`, inherited unchanged from `Movable`. -/
def Player.reset (p : Player) : Player :=
  ⟨p.toMovable.reset⟩

/-- One command applied to a `Player`, through the inherited methods. -/
def Player.step {α : Type} (p : Player) : Cmd α → Player
  | .turn t => (p.turn t).1
  | .move grid => (p.move grid).1
  | .reset => p.reset

/-- A finite sequence of commands applied to a `Player` in order. -/
def Player.run {α : Type} (p : Player) : List (Cmd α) → Player
  | [] => p
  | c :: cs => (p.step c).run cs

/-- A 3×3 grid (cell contents are irrelevant to `move`). -/
def g33 : List (List Nat) := [[0, 0, 0], [0, 0, 0], [0, 0, 0]]

/-- A grid with heterogeneous row widths: row 0 has length 2, row 1 has
length 5. -/
def gHet : List (List Nat) := [[0, 0], [0, 0, 0, 0, 0]]

/-- `move` with the grid replaced by its shape (the list of row lengths):
used to show `move` reads nothing but the shape. -/
def moveShape (m : Movable) (shape : List Nat) : Movable × Option PyErr :=
  match m.dir with
  | .tup _ => (m, some PyErr.AttributeError)
  | .dir d =>
    let c : Int × Int := (m.pos.1 + d.value.1, m.pos.2 + d.value.2)
    if 0 ≤ c.2 ∧ c.2 < (shape.length : Int) then
      match shape[c.2.toNat]? with
      | none => (m, some PyErr.IndexError)
      | some rowLen =>
        if 0 ≤ c.1 ∧ c.1 < (rowLen : Int) then ({ m with pos := c }, none)
        else (m, none)
    else (m, none)

/-! ### Helper lemmas -/

/-- `turn` never touches the start fields or the position: the returned
state differs from the input at most in the `dir` field. -/
lemma turn_frame (m : Movable) (t : Turn) :
    (m.turn t).1.start_pos = m.start_pos ∧ (m.turn t).1.start_dir = m.start_dir ∧
      (m.turn t).1.pos = m.pos := by
  unfold Movable.turn
  rcases rotApply t m.dir with e | v <;> exact ⟨rfl, rfl, rfl⟩

/-- `move` never touches the start fields or the direction: the returned
state differs from the input at most in the `pos` field. -/
lemma move_frame {α : Type} (m : Movable) (grid : List (List α)) :
    (m.move grid).1.start_pos = m.start_pos ∧ (m.move grid).1.start_dir = m.start_dir ∧
      (m.move grid).1.dir = m.dir := by
  unfold Movable.move
  rcases m with ⟨sp, sd, pos, dv⟩
  cases dv with
  | tup v => exact ⟨rfl, rfl, rfl⟩
  | dir d =>
    dsimp only
    split
    · split
      · exact ⟨rfl, rfl, rfl⟩
      · split <;> exact ⟨rfl, rfl, rfl⟩
    · exact ⟨rfl, rfl, rfl⟩

/-- Every single command preserves the start fields. -/
lemma step_start {α : Type} (m : Movable) (c : Cmd α) :
    (m.step c).start_pos = m.start_pos ∧ (m.step c).start_dir = m.start_dir := by
  cases c with
  | turn t => exact ⟨(turn_frame m t).1, (turn_frame m t).2.1⟩
  | move grid => exact ⟨(move_frame m grid).1, (move_frame m grid).2.1⟩
  | reset => exact ⟨rfl, rfl⟩

/-- Every command sequence preserves the start fields. -/
lemma run_start {α : Type} (cmds : List (Cmd α)) (m : Movable) :
    (m.run cmds).start_pos = m.start_pos ∧ (m.run cmds).start_dir = m.start_dir := by
  induction cmds generalizing m with
  | nil => exact ⟨rfl, rfl⟩
  | cons c cs ih =>
    exact ⟨((ih (m.step c)).1).trans (step_start m c).1,
      ((ih (m.step c)).2).trans (step_start m c).2⟩

/-- `move` reads the grid only through its shape: replacing the grid by its
list of row lengths leaves the result unchanged. -/
lemma move_eq_moveShape {α : Type} (m : Movable) (grid : List (List α)) :
    m.move grid = moveShape m (grid.map List.length) := by
  unfold Movable.move moveShape
  rcases m with ⟨sp, sd, pos, dv⟩
  cases dv with
  | tup v => rfl
  | dir d =>
    dsimp only
    rw [List.length_map, List.getElem?_map]
    split
    · cases grid[(pos.2 + d.value.2).toNat]? with
      | none => rfl
      | some row => rfl
    · rfl

/-- A `Player` steps exactly as its underlying `Movable` does. -/
lemma player_step_toMovable {α : Type} (p : Player) (c : Cmd α) :
    (p.step c).toMovable = p.toMovable.step c := by
  cases c <;> rfl

/-- A `Player` runs a command sequence exactly as its underlying `Movable`
does. -/
lemma player_run_toMovable {α : Type} (cmds : List (Cmd α)) (p : Player) :
    (p.run cmds).toMovable = p.toMovable.run cmds := by
  induction cmds generalizing p with
  | nil => rfl
  | cons c cs ih =>
    show ((p.step c).run cs).toMovable = (p.toMovable.step c).run cs
    rw [ih (p.step c), player_step_toMovable]

/-! ### Claim theorems -/

/-- Claim C1: for every `Movable` (whose `__dir` field holds a `Direction`,
as it does in every reachable state) and every grid, `move` computes the
candidate `position + direction.vector()`; when the candidate's row index
is within `[0, num_rows)` and its column index is within `[0, length of
that target row)` the position is updated to the candidate, and otherwise
the call leaves the state unchanged, silently (no error).  In particular a
`Movable` at `(1, 1)` facing `RIGHT` on a 3×3 grid ends at `(2, 1)`, and on
the grid whose row 0 has length 2 and row 1 has length 5 a move into row 0
is bounds-checked against row 0's length: from `(1, 1)` facing `UP` the
move succeeds, while from `(3, 1)` facing `UP` it is a no-op even though
`3 < 5`. -/
theorem C1_move_bounds :
    (∀ (α : Type) (grid : List (List α)) (m : Movable) (d : Direction),
      m.dir = DirVal.dir d →
      m.move grid =
        (if inBounds grid (candidate m d) then { m with pos := candidate m d }
          else m, none))
    ∧ ((Movable.init (1, 1) Direction.RIGHT).move g33).1.pos = (2, 1)
    ∧ ((Movable.init (1, 1) Direction.UP).move gHet).1.pos = (1, 0)
    ∧ ((Movable.init (3, 1) Direction.UP).move gHet).1.pos = (3, 1) := by
  refine ⟨?_, by decide, by decide, by decide⟩
  intro α grid m d h
  rcases m with ⟨sp, sd, pos, dv⟩
  cases h
  unfold Movable.move inBounds candidate
  dsimp only
  split
  · next hg =>
    have hlt : (pos.2 + d.value.2).toNat < grid.length := by omega
    rw [List.getElem?_eq_getElem hlt]
    dsimp only
    split
    · rfl
    · rfl
  · rfl

/-- Claim C1 witness: the general bounds equation applied to the concrete
legal step from `(1, 1)` facing `RIGHT` on the 3×3 grid. -/
theorem C1_move_bounds_witness :
    (Movable.init (1, 1) Direction.RIGHT).move g33 =
      (if inBounds g33 (candidate (Movable.init (1, 1) Direction.RIGHT) Direction.RIGHT)
        then { Movable.init (1, 1) Direction.RIGHT with
          pos := candidate (Movable.init (1, 1) Direction.RIGHT) Direction.RIGHT }
        else Movable.init (1, 1) Direction.RIGHT, none) :=
  C1_move_bounds.1 Nat g33 (Movable.init (1, 1) Direction.RIGHT) Direction.RIGHT rfl

/-- Claim C2 (refuting evaluation): `turn` does not always succeed — on a
freshly constructed `Movable` the very first `turn` call raises (the
rotation lambda subscripts the `Direction` member, a `TypeError`; in
CPython the attribute lookup `turn.get_new_dir` already raises an
`AttributeError` because `Enum` does not turn the lambdas into members)
and the state is left unchanged, contradicting the claim that `turn`
always succeeds and replaces the direction. -/
theorem C2_turn_raises :
    (Movable.init (0, 0) Direction.UP).turn Turn.RIGHT =
      (Movable.init (0, 0) Direction.UP, some PyErr.TypeError) := rfl

/-- Claim C3 (refuting evaluation): the written rotation operators are
reflections, not 90° rotations — rotating left then right negates the
displacement vector instead of restoring it, so on `Direction.RIGHT`'s
vector `(1, 0)` the left-then-right composite yields `Direction.LEFT`'s
vector `(-1, 0)`, not the original; the two operators are involutions (so
four equal applications are the identity), but left-then-right is not. -/
theorem C3_rotation_law_fails :
    (∀ p : Int × Int,
      Turn.get_new_dir Turn.RIGHT (Turn.get_new_dir Turn.LEFT p) = (-p.1, -p.2))
    ∧ Turn.get_new_dir Turn.RIGHT (Turn.get_new_dir Turn.LEFT Direction.RIGHT.value) =
        Direction.LEFT.value
    ∧ Direction.LEFT.value ≠ Direction.RIGHT.value
    ∧ ∀ p : Int × Int,
        Turn.get_new_dir Turn.RIGHT (Turn.get_new_dir Turn.RIGHT p) = p := by
  exact ⟨fun p => rfl, rfl, by decide, fun p => by simp [Turn.get_new_dir]⟩

/-- Claim C4: after any finite command sequence, `reset` restores the
state produced by construction, exactly; and `reset` is idempotent. -/
theorem C4_reset_restores :
    (∀ (α : Type) (p : Int × Int) (d : Direction) (cmds : List (Cmd α)),
      ((Movable.init p d).run cmds).reset = Movable.init p d)
    ∧ ∀ m : Movable, m.reset.reset = m.reset := by
  constructor
  · intro _α p d cmds
    have h := run_start cmds (Movable.init p d)
    rcases hr : (Movable.init p d).run cmds with ⟨a, b, q, dv⟩
    rw [hr] at h
    obtain ⟨h1, h2⟩ := h
    cases h1
    cases h2
    rfl
  · intro m
    rfl

/-- Claim C5 (refuting evaluation): from `(0, 0)` facing `RIGHT`, the call
`turn(Turn.RIGHT)` raises and leaves the state unchanged; moreover the
written rotation value maps `RIGHT`'s vector `(1, 0)` to `(0, -1)`, which
is `UP`'s vector, not `DOWN`'s `(0, 1)`, so under no reading does the
claimed state (direction `DOWN`, position `(0, 1)`) arise. -/
theorem C5_turn_then_move_fails :
    (Movable.init (0, 0) Direction.RIGHT).turn Turn.RIGHT =
      (Movable.init (0, 0) Direction.RIGHT, some PyErr.TypeError)
    ∧ Turn.get_new_dir Turn.RIGHT Direction.RIGHT.value = Direction.UP.value
    ∧ Direction.UP.value ≠ Direction.DOWN.value := ⟨rfl, rfl, by decide⟩

/-- Claim C6: every operation preserves the start fields, `move` never
changes the direction field, and `turn` never changes the position
field. -/
theorem C6_frame_conditions :
    ∀ (α : Type) (m : Movable) (t : Turn) (grid : List (List α)),
      ((m.turn t).1.start_pos = m.start_pos ∧ (m.turn t).1.start_dir = m.start_dir ∧
        (m.turn t).1.pos = m.pos)
      ∧ ((m.move grid).1.start_pos = m.start_pos ∧
        (m.move grid).1.start_dir = m.start_dir ∧ (m.move grid).1.dir = m.dir)
      ∧ (m.reset.start_pos = m.start_pos ∧ m.reset.start_dir = m.start_dir) :=
  fun α m t grid => ⟨turn_frame m t, move_frame m grid, rfl, rfl⟩

/-- Claim C7: the outcome of `move` depends only on the grid's shape — two
grids with equal row-length lists (hence equal row counts), whatever their
cell contents or even cell types, give identical results. -/
theorem C7_shape_only :
    ∀ (α β : Type) (g1 : List (List α)) (g2 : List (List β)) (m : Movable),
      g1.map List.length = g2.map List.length → m.move g1 = m.move g2 := by
  intro α β g1 g2 m h
  rw [move_eq_moveShape, move_eq_moveShape, h]

/-- Claim C7 witness: a `Nat`-valued and a `Unit`-valued grid of shape
`[1, 2]` produce the same move result. -/
theorem C7_shape_only_witness :
    (Movable.init (0, 0) Direction.DOWN).move [[5], [7, 9]] =
      (Movable.init (0, 0) Direction.DOWN).move [[()], [(), ()]] :=
  C7_shape_only Nat Unit [[5], [7, 9]] [[()], [(), ()]]
    (Movable.init (0, 0) Direction.DOWN) rfl

/-- Claim C8: a `Player` and a `Movable` constructed with the same
arguments reach the same states under every command sequence, and each
inherited operation agrees with `Movable`'s pointwise. -/
theorem C8_player_equiv :
    ∀ (α : Type) (pos : Int × Int) (d : Direction) (cmds : List (Cmd α)),
      ((Player.init pos d).run cmds).toMovable = (Movable.init pos d).run cmds
      ∧ ∀ (p : Player) (t : Turn) (g : List (List α)),
          (p.turn t).1.toMovable = (p.toMovable.turn t).1
          ∧ (p.turn t).2 = (p.toMovable.turn t).2
          ∧ (p.move g).1.toMovable = (p.toMovable.move g).1
          ∧ (p.move g).2 = (p.toMovable.move g).2
          ∧ p.reset.toMovable = p.toMovable.reset := by
  intro α pos d cmds
  exact ⟨player_run_toMovable cmds (Player.init pos d),
    fun p t g => ⟨rfl, rfl, rfl, rfl, rfl⟩⟩

/-- Claim C9: `move` never surfaces an out-of-range indexing error, for any
grid (the empty grid and negative candidate row indices included): the row
access is guarded by the short-circuiting row-bound conjunct. -/
theorem C9_no_index_error :
    ∀ (α : Type) (grid : List (List α)) (m : Movable),
      (m.move grid).2 ≠ some PyErr.IndexError := by
  intro α grid m
  unfold Movable.move
  rcases m with ⟨sp, sd, pos, dv⟩
  cases dv with
  | tup v => simp
  | dir d =>
    dsimp only
    split
    · next hg =>
      have hlt : (pos.2 + d.value.2).toNat < grid.length := by omega
      rw [List.getElem?_eq_getElem hlt]
      dsimp only
      split <;> exact nofun
    · exact nofun

/-- Claim C10: `turn` is atomic on error — whenever the rotation raises,
the returned state is exactly the input state (position and direction both
unchanged), because the assignment happens only after the rotation
returns. -/
theorem C10_turn_atomic :
    ∀ (m : Movable) (t : Turn) (e : PyErr),
      (m.turn t).2 = some e → (m.turn t).1 = m := by
  intro m t e h
  rcases m with ⟨sp, sd, pos, dv⟩
  cases dv with
  | dir d => rfl
  | tup v => exact nomatch h

/-- Claim C10 witness: the atomicity theorem applied to the concrete
erroring call `turn(Turn.LEFT)` on a fresh `Movable`. -/
theorem C10_turn_atomic_witness :
    ((Movable.init (0, 0) Direction.UP).turn Turn.LEFT).1 =
      Movable.init (0, 0) Direction.UP :=
  C10_turn_atomic (Movable.init (0, 0) Direction.UP) Turn.LEFT PyErr.TypeError rfl

end MovingPuzzleObjects
